import Mathlib

/-
Verification of the Taler merchant MITM error-generating reverse proxy
(src/mitm/talermerchantmitm/mitm.py and src/mitm/taler-merchant-mitm.py).

The Python handler and its helper functions are shallowly embedded below.
Python exceptions are made explicit with `Except PyError`; the standard
library pieces the code calls (`json.loads` via `resp.json()`, `json.dumps`,
and `urllib.parse.urlparse` / `urlunparse` / `urljoin`) are modelled as
executable Lean functions faithful to their behaviour on the inputs this
proxy can produce.
-/

namespace TalerMitm

/-! ## JSON values and the `json` library model

Model of the Python `json` module as used by `resp.json()` and
`json.dumps`.  Numeric literals are modelled as integers (the proxy never
manipulates numbers, it only re-serializes them); `json.dumps` is modelled
with its default separators `", "` and `": "`. -/

inductive Json where
  | null : Json
  | bool (b : Bool) : Json
  | num (n : Int) : Json
  | str (s : String) : Json
  | arr (elems : List Json) : Json
  | obj (entries : List (String × Json)) : Json

/-- The double-quote character. -/
def quoteC : Char := Char.ofNat 34

/-- The backslash character. -/
def backslashC : Char := Char.ofNat 92

/-- The opening curly brace character. -/
def lbraceC : Char := Char.ofNat 123

/-- The closing curly brace character. -/
def rbraceC : Char := Char.ofNat 125

/-- JSON whitespace characters (space, tab, newline, carriage return). -/
def jsonWs (c : Char) : Bool :=
  c = ' ' || c = Char.ofNat 9 || c = Char.ofNat 10 || c = Char.ofNat 13

/-- Drop leading JSON whitespace. -/
def skipWsL : List Char → List Char
  | [] => []
  | c :: cs => if jsonWs c then skipWsL cs else c :: cs

/-- Consume an exact literal; return the remainder on success. -/
def takeLit : List Char → List Char → Option (List Char)
  | [], cs => some cs
  | _ :: _, [] => none
  | l :: ls, c :: cs => if c = l then takeLit ls cs else none

/-- Translate a JSON escape character to the character it denotes. -/
def unescape (c : Char) : Option Char :=
  if c = quoteC then some quoteC
  else if c = backslashC then some backslashC
  else if c = '/' then some '/'
  else if c = 'n' then some (Char.ofNat 10)
  else if c = 't' then some (Char.ofNat 9)
  else if c = 'r' then some (Char.ofNat 13)
  else if c = 'b' then some (Char.ofNat 8)
  else if c = 'f' then some (Char.ofNat 12)
  else none

/-- Parse the body of a JSON string after the opening quote, returning the
decoded content and the remainder after the closing quote. -/
def parseStringBody : List Char → Option (String × List Char)
  | [] => none
  | c :: cs =>
    if c = quoteC then some ("", cs)
    else if c = backslashC then
      match cs with
      | [] => none
      | e :: cs2 =>
        match unescape e with
        | none => none
        | some ec =>
          match parseStringBody cs2 with
          | none => none
          | some (s, rest) => some (String.singleton ec ++ s, rest)
    else
      match parseStringBody cs with
      | none => none
      | some (s, rest) => some (String.singleton c ++ s, rest)

/-- Split the longest run of leading decimal digits. -/
def takeDigits : List Char → (List Char × List Char)
  | [] => ([], [])
  | c :: cs =>
    if c.isDigit then
      let (ds, rest) := takeDigits cs
      (c :: ds, rest)
    else ([], c :: cs)

/-- Decimal value of a digit list. -/
def digitsToNat (ds : List Char) : Nat :=
  ds.foldl (fun acc c => 10 * acc + (c.toNat - 48)) 0

/-- Parse a JSON integer literal (optional minus sign, then digits). -/
def parseIntL (cs : List Char) : Option (Int × List Char) :=
  match cs with
  | '-' :: rest =>
    let (ds, r) := takeDigits rest
    if ds.isEmpty then none else some (-(digitsToNat ds : Int), r)
  | _ =>
    let (ds, r) := takeDigits cs
    if ds.isEmpty then none else some ((digitsToNat ds : Int), r)

mutual

/-- Parse one JSON value; the fuel bounds recursion depth. -/
def parseValue : Nat → List Char → Option (Json × List Char)
  | 0, _ => none
  | Nat.succ fuel, cs0 =>
    let cs := skipWsL cs0
    match takeLit ("null".data) cs with
    | some rest => some (Json.null, rest)
    | none =>
    match takeLit ("true".data) cs with
    | some rest => some (Json.bool true, rest)
    | none =>
    match takeLit ("false".data) cs with
    | some rest => some (Json.bool false, rest)
    | none =>
    match cs with
    | [] => none
    | c :: rest =>
      if c = quoteC then
        match parseStringBody rest with
        | none => none
        | some (s, r) => some (Json.str s, r)
      else if c = '[' then
        let cs1 := skipWsL rest
        match cs1 with
        | c1 :: r1 =>
          if c1 = ']' then some (Json.arr [], r1)
          else
            match parseElems fuel cs1 with
            | none => none
            | some (xs, r2) => some (Json.arr xs, r2)
        | [] => none
      else if c = lbraceC then
        let cs1 := skipWsL rest
        match cs1 with
        | c1 :: r1 =>
          if c1 = rbraceC then some (Json.obj [], r1)
          else
            match parseMembers fuel cs1 with
            | none => none
            | some (kvs, r2) => some (Json.obj kvs, r2)
        | [] => none
      else
        match parseIntL cs with
        | none => none
        | some (n, r) => some (Json.num n, r)

/-- Parse the elements of a nonempty JSON array up to the closing bracket. -/
def parseElems : Nat → List Char → Option (List Json × List Char)
  | 0, _ => none
  | Nat.succ fuel, cs =>
    match parseValue fuel cs with
    | none => none
    | some (v, cs1) =>
      match skipWsL cs1 with
      | [] => none
      | c :: rest =>
        if c = ',' then
          match parseElems fuel rest with
          | none => none
          | some (xs, r) => some (v :: xs, r)
        else if c = ']' then some ([v], rest)
        else none

/-- Parse the members of a nonempty JSON object up to the closing brace. -/
def parseMembers : Nat → List Char → Option (List (String × Json) × List Char)
  | 0, _ => none
  | Nat.succ fuel, cs =>
    match skipWsL cs with
    | [] => none
    | c :: rest =>
      if c = quoteC then
        match parseStringBody rest with
        | none => none
        | some (k, cs1) =>
          match skipWsL cs1 with
          | ':' :: cs2 =>
            match parseValue fuel cs2 with
            | none => none
            | some (v, cs3) =>
              match skipWsL cs3 with
              | [] => none
              | c2 :: rest2 =>
                if c2 = ',' then
                  match parseMembers fuel rest2 with
                  | none => none
                  | some (kvs, r) => some ((k, v) :: kvs, r)
                else if c2 = rbraceC then some ([(k, v)], rest2)
                else none
          | _ => none
      else none

end

/-- Model of Python `json.loads`: parse a complete JSON document, requiring
the whole input (up to trailing whitespace) to be consumed. -/
def json_loads (s : String) : Option Json :=
  match parseValue (4 * (s.length + 1)) s.data with
  | some (j, rest) => if (skipWsL rest).isEmpty then some j else none
  | none => none

/-- Escape one character for JSON string output. -/
def escapeChar (c : Char) : String :=
  if c = quoteC then String.mk [backslashC, quoteC]
  else if c = backslashC then String.mk [backslashC, backslashC]
  else if c = Char.ofNat 10 then String.mk [backslashC, 'n']
  else if c = Char.ofNat 9 then String.mk [backslashC, 't']
  else if c = Char.ofNat 13 then String.mk [backslashC, 'r']
  else String.singleton c

/-- Render a JSON string literal with surrounding quotes. -/
def quoteStr (s : String) : String :=
  String.singleton quoteC ++ String.join (s.data.map escapeChar)
    ++ String.singleton quoteC

mutual

/-- Model of Python `json.dumps` with its default separators. -/
def serializeJson : Json → String
  | Json.null => "null"
  | Json.bool true => "true"
  | Json.bool false => "false"
  | Json.num n => toString n
  | Json.str s => quoteStr s
  | Json.arr xs => "[" ++ serializeElems xs ++ "]"
  | Json.obj kvs =>
      String.singleton lbraceC ++ serializeEntries kvs ++ String.singleton rbraceC

/-- Serialize array elements joined by a comma and a space. -/
def serializeElems : List Json → String
  | [] => ""
  | [x] => serializeJson x
  | x :: y :: xs => serializeJson x ++ ", " ++ serializeElems (y :: xs)

/-- Serialize object entries joined by a comma and a space. -/
def serializeEntries : List (String × Json) → String
  | [] => ""
  | [(k, v)] => quoteStr k ++ ": " ++ serializeJson v
  | (k, v) :: e :: kvs =>
      quoteStr k ++ ": " ++ serializeJson v ++ ", " ++ serializeEntries (e :: kvs)

end

/-! ## URL model (`urllib.parse`)

Model of `urlparse`, `urlunparse` and `urljoin` as used by the handler.
Notes on fidelity: the `params` component (split on a semicolon in the last
path segment) is carried through the structure but never split out by this
model, and `urljoin` is modelled for the reference shapes the handler can
pass it, namely a Flask `path` variable: a relative reference with no
scheme, authority, query or fragment of its own. -/

structure URLParts where
  scheme : String
  netloc : String
  path : String
  params : String
  query : String
  fragment : String
deriving DecidableEq

/-- Split a character list at the first occurrence of `c`, dropping `c`. -/
def splitFirst (c : Char) : List Char → (List Char × Option (List Char))
  | [] => ([], none)
  | x :: xs =>
    if x = c then ([], some xs)
    else
      let (before, after) := splitFirst c xs
      (x :: before, after)

/-- Whether a character may appear in a URL scheme after the first letter. -/
def schemeChar (c : Char) : Bool :=
  c.isAlphanum || c = '+' || c = '-' || c = '.'

/-- Take the leading characters until one of the delimiters is hit. -/
def takeUntilDelims (delims : List Char) : List Char → (List Char × List Char)
  | [] => ([], [])
  | c :: cs =>
    if delims.contains c then ([], c :: cs)
    else
      let (before, after) := takeUntilDelims delims cs
      (c :: before, after)

/-- Model of Python `urllib.parse.urlparse`: split a URL string into
scheme, netloc, path, params, query and fragment.  The scheme is
lowercased as CPython does; the params component is left inside the path
(see the section comment). -/
def urlparse (s : String) : URLParts :=
  let cs := s.data
  -- scheme: text before the first colon, if alphabetic then scheme chars
  let (scheme, rest) :=
    match splitFirst ':' cs with
    | (before, some after) =>
      match before with
      | [] => ("", cs)
      | b :: bs =>
        if b.isAlpha && bs.all schemeChar then
          (String.mk ((b :: bs).map Char.toLower), after)
        else ("", cs)
    | (_, none) => ("", cs)
  -- netloc: present when the remainder starts with two slashes
  let (netloc, rest) :=
    match rest with
    | '/' :: '/' :: after =>
      let (n, r) := takeUntilDelims ['/', '?', Char.ofNat 35] after
      (String.mk n, r)
    | _ => ("", rest)
  -- fragment: split off at the first hash sign
  let (rest, fragment) :=
    match splitFirst (Char.ofNat 35) rest with
    | (before, some after) => (before, String.mk after)
    | (before, none) => (before, "")
  -- query: split off at the first question mark
  let (path, query) :=
    match splitFirst '?' rest with
    | (before, some after) => (String.mk before, String.mk after)
    | (before, none) => (String.mk before, "")
  ⟨scheme, netloc, path, "", query, fragment⟩

/-- Whether a string starts with the given character. -/
def headIs (c : Char) (s : String) : Bool :=
  match s.data with
  | x :: _ => x = c
  | [] => false

/-- Whether a string starts with two slashes. -/
def head2Slash (s : String) : Bool :=
  match s.data with
  | '/' :: '/' :: _ => true
  | _ => false

/-- Model of Python `urllib.parse.urlunparse`. -/
def urlunparse (u : URLParts) : String :=
  let url := if u.params = "" then u.path else u.path ++ ";" ++ u.params
  let url :=
    if u.netloc != "" || head2Slash url then
      (if url != "" && !(headIs '/' url) then "//" ++ u.netloc ++ "/" ++ url
       else "//" ++ u.netloc ++ url)
    else url
  let url := if u.scheme != "" then u.scheme ++ ":" ++ url else url
  let url := if u.query != "" then url ++ "?" ++ u.query else url
  if u.fragment != "" then url ++ "#" ++ u.fragment else url

/-- Split a character list on slashes, as Python `path.split("/")`. -/
def splitSlashL : List Char → List String
  | [] => [""]
  | c :: cs =>
    if c = '/' then "" :: splitSlashL cs
    else
      match splitSlashL cs with
      | s :: rest => (String.singleton c ++ s) :: rest
      | [] => [String.singleton c]

/-- Split a string on slashes, as Python `path.split("/")`. -/
def splitSlash (s : String) : List String :=
  splitSlashL s.data

/-- Resolve `.` and `..` path segments, accumulator-style. -/
def resolveDotsAux (acc : List String) : List String → List String
  | [] => acc.reverse
  | s :: rest =>
    if s = "." then resolveDotsAux acc rest
    else if s = ".." then
      match acc with
      | [] => resolveDotsAux [] rest
      | [""] => resolveDotsAux [""] rest
      | _ :: t => resolveDotsAux t rest
    else resolveDotsAux (s :: acc) rest

/-- Resolve dot segments in a slash-separated path. -/
def resolveDots (segs : List String) : List String :=
  resolveDotsAux [] segs

/-- Model of Python `urllib.parse.urljoin` for the base/reference shapes the
handler produces: the base is an absolute URL string and the reference is a
Flask path variable (a relative reference without scheme, authority, query
or fragment).  A reference that parses with its own scheme or netloc is
returned resolved on its own, as CPython does. -/
def urljoin (base ref : String) : String :=
  if base = "" then ref
  else if ref = "" then base
  else
    let b := urlparse base
    let r := urlparse ref
    if r.scheme != "" && r.scheme != b.scheme then ref
    else if r.netloc != "" then
      urlunparse { r with scheme := if r.scheme = "" then b.scheme else r.scheme }
    else if r.path = "" then
      urlunparse { b with
        query := if r.query != "" then r.query else b.query,
        fragment := r.fragment }
    else
      let segs :=
        if headIs '/' r.path then splitSlash r.path
        else (splitSlash b.path).dropLast ++ splitSlash r.path
      urlunparse ⟨b.scheme, b.netloc, String.intercalate "/" (resolveDots segs),
        r.params, r.query, r.fragment⟩

/-! ## Embedding of src/mitm/talermerchantmitm/mitm.py

Python exceptions are explicit: a Python function that may raise is
`Except PyError`-valued, and a `try/except` block is a `match` on that
value. -/

/-- Exceptions the embedded code can raise: a `json` decode error from
`resp.json()` or `json.dumps`, and a transport-level failure from
`requests.get` / `requests.post`. -/
inductive PyError where
  | jsonDecodeError : PyError
  | transportError : PyError
deriving DecidableEq

/-- The upstream response as seen through the `requests` library: status
code, header mapping (association list, keys unique) and body text. -/
structure UpstreamResponse where
  status : Nat
  headers : List (String × String)
  text : String

/-- Model of `resp.json()`: parse the body text, raising on failure. -/
def resp_json (resp : UpstreamResponse) : Except PyError Json :=
  match json_loads resp.text with
  | some j => Except.ok j
  | none => Except.error PyError.jsonDecodeError

/-- Model of `json.dumps`, typed fallibly as any Python call is. -/
def json_dumps (j : Json) : Except PyError String := Except.ok (serializeJson j)

/-- Transformation `track_transaction`: identity on the body text. -/
def track_transaction (resp : UpstreamResponse) : Except PyError String :=
  Except.ok resp.text

/-- Transformation `track_transfer`: identity on the body text. -/
def track_transfer (resp : UpstreamResponse) : Except PyError String :=
  Except.ok resp.text

/-- Transformation `keys`: try to parse the body as JSON and re-serialize
it; any exception from the `try` block (the inner match sequences the two
fallible statements of the block) falls back to the raw body text. -/
def keys (resp : UpstreamResponse) : Except PyError String :=
  match (match resp_json resp with
    | Except.ok k => json_dumps k
    | Except.error e => Except.error e) with
  | Except.ok s => Except.ok s
  | Except.error _ => Except.ok resp.text

/-- The dispatcher lookup `dispatcher.get(request.headers.get("X-Taler-Mitm"),
lambda x: x.text)`: map the directive header value to a transformation,
defaulting to the identity on body text. -/
def dispatcher (h : Option String) (x : UpstreamResponse) : Except PyError String :=
  if h = some "track_transaction" then track_transaction x
  else if h = some "track_transfer" then track_transfer x
  else if h = some "keys" then keys x
  else Except.ok x.text

/-- The inbound Flask request as the handler reads it: `request.method`,
`request.url`, `request.get_json()` (already parsed, `none` when no JSON
body is present) and `request.headers.get("X-Taler-Mitm")`. -/
structure InboundRequest where
  method : String
  url : String
  bodyJson : Option Json
  xTalerMitm : Option String

/-- The outbound call handed to `requests.get` / `requests.post`: method,
target URL string, and the `json=body` keyword payload. -/
structure UpstreamRequest where
  method : String
  url : String
  jsonBody : Option Json

/-- The response the handler returns: status code, the headers it set, and
the body produced by the selected transformation. -/
structure OutboundResponse where
  status : Nat
  headers : List (String × String)
  body : String

/-- Lines 57-62 of the handler: parse the inbound URL, parse the configured
upstream URL, substitute scheme (index 0) and netloc (index 1), and
unparse. -/
def rewrite_url (exchange_url inbound_url : String) : String :=
  let url := urlparse inbound_url
  let xurl := urlparse exchange_url
  urlunparse { url with scheme := xurl.scheme, netloc := xurl.netloc }

/-- The URL actually passed to `requests.get` / `requests.post`:
`urljoin(url, path)` applied to the rewritten inbound URL and the Flask
`path` variable. -/
def forward_target (exchange_url inbound_url path : String) : String :=
  urljoin (rewrite_url exchange_url inbound_url) path

/-- Lines 63-66: the upstream request the handler issues — POST forwards as
POST, any other method as GET, and `request.get_json()` is passed as the
JSON payload in both branches. -/
def build_upstream_request (exchange_url path : String)
    (req : InboundRequest) : UpstreamRequest :=
  if req.method = "POST" then
    ⟨"POST", forward_target exchange_url req.url path, req.bodyJson⟩
  else
    ⟨"GET", forward_target exchange_url req.url path, req.bodyJson⟩

/-- Lines 75-77: copy the upstream headers onto the outbound response,
skipping the exact keys `Server` and `Content-Length`. -/
def copy_headers (hs : List (String × String)) : List (String × String) :=
  hs.filter (fun kv => kv.1 != "Server" && kv.1 != "Content-Length")

/-- The whole handler `all(path)`.  The network is abstracted as the
`upstream` oracle standing for `requests.get` / `requests.post`; an
`Except.error` from it is an uncaught Python exception, which the handler
propagates because it has no `try` block around the call. -/
def all (exchange_url : String)
    (upstream : UpstreamRequest → Except PyError UpstreamResponse)
    (path : String) (req : InboundRequest) : Except PyError OutboundResponse :=
  match upstream (build_upstream_request exchange_url path req) with
  | Except.error e => Except.error e
  | Except.ok r =>
    match dispatcher req.xTalerMitm r with
    | Except.error e => Except.error e
    | Except.ok bodyOut => Except.ok ⟨r.status, copy_headers r.headers, bodyOut⟩

/-! ## Startup checks

Embedding of the module-level check in mitm.py
(`exchange_url = os.environ.get("TALER_EXCHANGE_URL")` followed by
`assert(None != exchange_url)`) and of the CLI check in
taler-merchant-mitm.py (`if getattr(args, "exchange_url", None) is None:
... sys.exit(1)`). -/

/-- Whether the module-level assert lets the process start: true exactly
when the environment variable is set, with no inspection of its value. -/
def startup_ok (exchange_url : Option String) : Bool :=
  match exchange_url with
  | none => false
  | some _ => true

/-- Whether taler-merchant-mitm.py proceeds past argument checking: true
exactly when the `--exchange` option was given, with no inspection of its
value. -/
def cli_accepts (exchange_url : Option String) : Bool :=
  exchange_url.isSome

/-- Modelled from the spec (section 4.1): a valid absolute URL has both a
scheme and an authority.  This is the spec-side notion the startup check is
compared against; no such validation exists in the source. -/
def spec_valid_absolute_url (s : String) : Bool :=
  (urlparse s).scheme ≠ "" && (urlparse s).netloc ≠ ""

/-! ## Helper lemmas -/

/-- The `keys` transformation always returns successfully. -/
theorem keys_ok (r : UpstreamResponse) : ∃ s, keys r = Except.ok s := by
  unfold keys
  split
  · exact ⟨_, rfl⟩
  · exact ⟨r.text, rfl⟩

/-- Every transformation the dispatcher can select returns successfully. -/
theorem dispatcher_ok (h : Option String) (r : UpstreamResponse) :
    ∃ s, dispatcher h r = Except.ok s := by
  unfold dispatcher
  split
  · exact ⟨r.text, rfl⟩
  split
  · exact ⟨r.text, rfl⟩
  split
  · exact keys_ok r
  · exact ⟨r.text, rfl⟩

/-- With the directive header absent or unrecognized, the dispatcher
returns the identity transformation on the body text. -/
theorem dispatcher_default (h : Option String) (r : UpstreamResponse)
    (h1 : h ≠ some "track_transaction") (h2 : h ≠ some "track_transfer")
    (h3 : h ≠ some "keys") : dispatcher h r = Except.ok r.text := by
  simp [dispatcher, h1, h2, h3]

/-- When the upstream call succeeds, the handler succeeds and returns the
upstream status, the filtered upstream headers, and the transformed body. -/
theorem all_ok (xu : String) (ups : UpstreamRequest → Except PyError UpstreamResponse)
    (path : String) (req : InboundRequest) (r : UpstreamResponse)
    (h : ups (build_upstream_request xu path req) = Except.ok r) :
    ∃ s, dispatcher req.xTalerMitm r = Except.ok s ∧
      all xu ups path req = Except.ok ⟨r.status, copy_headers r.headers, s⟩ := by
  obtain ⟨s, hs⟩ := dispatcher_ok req.xTalerMitm r
  refine ⟨s, hs, ?_⟩
  unfold all
  rw [h]
  dsimp only
  rw [hs]

/-! ## Claim theorems -/

/-- C1: the spec claims the forwarded target URL keeps the inbound path and
query untouched; the code refutes this.  On the spec's own example (inbound
`http://localhost:5000/track/transfer?wtid=ABC`, upstream base
`https://exchange.example`) the scheme/authority substitution of lines
57-62 does produce the expected URL, but the `urljoin(url, path)` on the
request line then drops the inbound query and duplicates the leading path
segment, so the proxy actually contacts
`https://exchange.example/track/track/transfer`. -/
theorem forward_target_drops_query_and_duplicates_path :
    rewrite_url "https://exchange.example" "http://localhost:5000/track/transfer?wtid=ABC"
      = "https://exchange.example/track/transfer?wtid=ABC" ∧
    forward_target "https://exchange.example" "http://localhost:5000/track/transfer?wtid=ABC"
      "track/transfer" = "https://exchange.example/track/track/transfer" ∧
    forward_target "https://exchange.example" "http://localhost:5000/track/transfer?wtid=ABC"
      "track/transfer" ≠ "https://exchange.example/track/transfer?wtid=ABC" :=
  ⟨rfl, rfl, by decide⟩

/-- C2: for every upstream response whose headers contain `Server` and
`Content-Length`, the response built by the handler contains neither of
those headers, and it contains every other upstream header with the
identical value. -/
theorem header_stripping (xu : String)
    (ups : UpstreamRequest → Except PyError UpstreamResponse) (path : String)
    (req : InboundRequest) (r : UpstreamResponse)
    (hup : ups (build_upstream_request xu path req) = Except.ok r)
    (hsrv : ∃ v, ("Server", v) ∈ r.headers)
    (hcl : ∃ v, ("Content-Length", v) ∈ r.headers) :
    ∃ out, all xu ups path req = Except.ok out ∧
      (∀ v, ("Server", v) ∉ out.headers) ∧
      (∀ v, ("Content-Length", v) ∉ out.headers) ∧
      (∀ k v, (k, v) ∈ r.headers → k ≠ "Server" → k ≠ "Content-Length" →
        (k, v) ∈ out.headers) := by
  obtain ⟨s, hdisp, hall⟩ := all_ok xu ups path req r hup
  refine ⟨_, hall, ?_, ?_, ?_⟩
  · intro v
    simp [copy_headers, List.mem_filter]
  · intro v
    simp [copy_headers, List.mem_filter]
  · intro k v hmem hk1 hk2
    simp [copy_headers, List.mem_filter, hmem, hk1, hk2]

/-- C2 witness: a concrete upstream response with `Server`,
`Content-Length` and `Content-Type` headers. -/
theorem header_stripping_witness :
    ∃ out, all "http://up:9000" (fun _ => Except.ok ⟨200,
        [("Server", "nginx"), ("Content-Length", "5"), ("Content-Type", "text/plain")],
        "hello"⟩) "keys" ⟨"GET", "http://proxy:5000/keys", none, none⟩ = Except.ok out ∧
      (∀ v, ("Server", v) ∉ out.headers) ∧
      (∀ v, ("Content-Length", v) ∉ out.headers) ∧
      (∀ k v, (k, v) ∈ [("Server", "nginx"), ("Content-Length", "5"),
          ("Content-Type", "text/plain")] → k ≠ "Server" → k ≠ "Content-Length" →
        (k, v) ∈ out.headers) :=
  header_stripping "http://up:9000" _ "keys" ⟨"GET", "http://proxy:5000/keys", none, none⟩
    ⟨200, [("Server", "nginx"), ("Content-Length", "5"), ("Content-Type", "text/plain")],
      "hello"⟩ rfl ⟨"nginx", by simp⟩ ⟨"5", by simp⟩

/-- C3: the `keys` transformation returns the JSON re-serialization of the
body when the body parses as JSON, returns the raw body text unchanged when
it does not, and a parse failure never propagates to the caller. -/
theorem keys_transformation (r : UpstreamResponse) :
    (∀ j, resp_json r = Except.ok j → keys r = Except.ok (serializeJson j)) ∧
    (∀ e, resp_json r = Except.error e → keys r = Except.ok r.text) ∧
    (∀ e, keys r ≠ Except.error e) := by
  refine ⟨?_, ?_, ?_⟩
  · intro j hj
    simp [keys, hj, json_dumps]
  · intro e hj
    simp [keys, hj]
  · intro e
    obtain ⟨s, hs⟩ := keys_ok r
    simp [hs]

/-- C3 witness: the spec's two examples, the non-JSON body `not json`
returned verbatim and the JSON body re-serialized. -/
theorem keys_transformation_witness :
    keys ⟨200, [], "not json"⟩ = Except.ok "not json" ∧
    keys ⟨200, [], "\x7b\"a\":1\x7d"⟩
      = Except.ok (serializeJson (Json.obj [("a", Json.num 1)])) :=
  ⟨(keys_transformation ⟨200, [], "not json"⟩).2.1 PyError.jsonDecodeError rfl,
   (keys_transformation ⟨200, [], "\x7b\"a\":1\x7d"⟩).1 (Json.obj [("a", Json.num 1)]) rfl⟩

/-- C4: when the directive header is absent or carries an unrecognized
value, the outbound body is the upstream body unchanged and the outbound
status is the upstream status. -/
theorem identity_passthrough (xu : String)
    (ups : UpstreamRequest → Except PyError UpstreamResponse) (path : String)
    (req : InboundRequest) (r : UpstreamResponse)
    (hup : ups (build_upstream_request xu path req) = Except.ok r)
    (h1 : req.xTalerMitm ≠ some "track_transaction")
    (h2 : req.xTalerMitm ≠ some "track_transfer")
    (h3 : req.xTalerMitm ≠ some "keys") :
    ∃ out, all xu ups path req = Except.ok out ∧
      out.body = r.text ∧ out.status = r.status := by
  have hd := dispatcher_default req.xTalerMitm r h1 h2 h3
  refine ⟨⟨r.status, copy_headers r.headers, r.text⟩, ?_, rfl, rfl⟩
  unfold all
  rw [hup]
  dsimp only
  rw [hd]

/-- C4 witness: an unrecognized directive `bogus` on a 404 upstream
response passes body and status through unchanged. -/
theorem identity_passthrough_witness :
    ∃ out, all "http://up:9000" (fun _ => Except.ok ⟨404, [], "upstream error body"⟩)
        "keys" ⟨"GET", "http://proxy:5000/keys", none, some "bogus"⟩ = Except.ok out ∧
      out.body = "upstream error body" ∧ out.status = 404 :=
  identity_passthrough "http://up:9000" _ "keys"
    ⟨"GET", "http://proxy:5000/keys", none, some "bogus"⟩
    ⟨404, [], "upstream error body"⟩ rfl (by decide) (by decide) (by decide)

/-- C5: whatever transformation the directive selects, the outbound status
code equals the upstream status code, so an upstream 4xx or 5xx is never
turned into a 2xx. -/
theorem status_passthrough (xu : String)
    (ups : UpstreamRequest → Except PyError UpstreamResponse) (path : String)
    (req : InboundRequest) (r : UpstreamResponse)
    (hup : ups (build_upstream_request xu path req) = Except.ok r) :
    ∃ out, all xu ups path req = Except.ok out ∧ out.status = r.status ∧
      (400 ≤ r.status → ¬(200 ≤ out.status ∧ out.status < 300)) := by
  obtain ⟨s, hdisp, hall⟩ := all_ok xu ups path req r hup
  refine ⟨_, hall, rfl, ?_⟩
  intro h4 hc
  obtain ⟨hlo, hhi⟩ := hc
  dsimp only at hlo hhi
  omega

/-- C5 witness: a concrete upstream 404 is passed through as 404. -/
theorem status_passthrough_witness :
    ∃ out, all "http://up:9000" (fun _ => Except.ok ⟨404, [], "not found"⟩) "keys"
        ⟨"GET", "http://proxy:5000/keys", none, none⟩ = Except.ok out ∧
      out.status = 404 ∧ (400 ≤ 404 → ¬(200 ≤ out.status ∧ out.status < 300)) := by
  obtain ⟨out, h1, h2, h3⟩ := status_passthrough "http://up:9000"
    (fun _ => Except.ok ⟨404, [], "not found"⟩) "keys"
    ⟨"GET", "http://proxy:5000/keys", none, none⟩ ⟨404, [], "not found"⟩ rfl
  exact ⟨out, h1, h2, h3⟩

/-- C6: the method and the JSON body are forwarded as the spec claims, but
the target URL is not the upstream base joined with the inbound path: on
the spec's example (POST of `\x7b"x":5\x7d` to `/track/transaction`
against upstream base `http://up:9000`) the upstream call goes to
`http://up:9000/track/track/transaction` rather than the claimed
`http://up:9000/track/transaction`. -/
theorem post_forwarding_bug :
    (build_upstream_request "http://up:9000" "track/transaction"
      ⟨"POST", "http://proxy:5000/track/transaction",
        some (Json.obj [("x", Json.num 5)]), none⟩).method = "POST" ∧
    (build_upstream_request "http://up:9000" "track/transaction"
      ⟨"POST", "http://proxy:5000/track/transaction",
        some (Json.obj [("x", Json.num 5)]), none⟩).jsonBody
      = some (Json.obj [("x", Json.num 5)]) ∧
    (build_upstream_request "http://up:9000" "track/transaction"
      ⟨"POST", "http://proxy:5000/track/transaction",
        some (Json.obj [("x", Json.num 5)]), none⟩).url
      = "http://up:9000/track/track/transaction" ∧
    (build_upstream_request "http://up:9000" "track/transaction"
      ⟨"POST", "http://proxy:5000/track/transaction",
        some (Json.obj [("x", Json.num 5)]), none⟩).url
      ≠ "http://up:9000/track/transaction" :=
  ⟨rfl, rfl, rfl, by decide⟩

/-- C7 counterexample: a present but malformed upstream base URL passes
both startup checks even though it is not a valid absolute URL, refuting
the claim that a malformed base is fatal at startup. -/
theorem startup_accepts_malformed_url :
    startup_ok (some "not a url") = true ∧
    cli_accepts (some "not a url") = true ∧
    spec_valid_absolute_url "not a url" = false :=
  ⟨rfl, rfl, rfl⟩

/-- C7 amended: a missing upstream base URL is fatal at startup (both the
environment assert and the CLI check reject it), but a present value is
accepted whatever its content — the startup checks test presence only and
never validate well-formedness. -/
theorem startup_checks_presence_only :
    (∀ s : String, startup_ok (some s) = true ∧ cli_accepts (some s) = true) ∧
    startup_ok none = false ∧ cli_accepts none = false :=
  ⟨fun _ => ⟨rfl, rfl⟩, rfl, rfl⟩

/-- C8: a transport-level failure of the upstream call propagates out of
the handler unchanged, and the handler never produces a success response
for that request. -/
theorem upstream_failure_propagates (xu : String)
    (ups : UpstreamRequest → Except PyError UpstreamResponse) (path : String)
    (req : InboundRequest) (e : PyError)
    (h : ups (build_upstream_request xu path req) = Except.error e) :
    all xu ups path req = Except.error e ∧
    ∀ out, all xu ups path req ≠ Except.ok out := by
  have herr : all xu ups path req = Except.error e := by
    unfold all
    rw [h]
  exact ⟨herr, fun out hc => by rw [herr] at hc; cases hc⟩

/-- C8 witness: a concrete request against an upstream that refuses the
connection. -/
theorem upstream_failure_propagates_witness :
    all "http://up:9000" (fun _ => Except.error PyError.transportError) "keys"
        ⟨"GET", "http://proxy:5000/keys", none, none⟩
      = Except.error PyError.transportError ∧
    ∀ out, all "http://up:9000" (fun _ => Except.error PyError.transportError) "keys"
        ⟨"GET", "http://proxy:5000/keys", none, none⟩ ≠ Except.ok out :=
  upstream_failure_propagates "http://up:9000" _ "keys"
    ⟨"GET", "http://proxy:5000/keys", none, none⟩ PyError.transportError rfl

/-- C9: an inbound GET carrying a JSON body is forwarded as an upstream GET
that carries the same JSON body — the body is attached for GET exactly as
for POST, not dropped. -/
theorem get_body_forwarded (xu path : String) (req : InboundRequest) (b : Json)
    (hm : req.method = "GET") (hb : req.bodyJson = some b) :
    (build_upstream_request xu path req).method = "GET" ∧
    (build_upstream_request xu path req).jsonBody = some b := by
  unfold build_upstream_request
  rw [hm]
  simp [hb]

/-- C9 witness: a concrete GET with a JSON body. -/
theorem get_body_forwarded_witness :
    (build_upstream_request "http://up:9000" "keys"
      ⟨"GET", "http://proxy:5000/keys", some (Json.obj [("x", Json.num 5)]), none⟩).method
      = "GET" ∧
    (build_upstream_request "http://up:9000" "keys"
      ⟨"GET", "http://proxy:5000/keys", some (Json.obj [("x", Json.num 5)]), none⟩).jsonBody
      = some (Json.obj [("x", Json.num 5)]) :=
  get_body_forwarded "http://up:9000" "keys"
    ⟨"GET", "http://proxy:5000/keys", some (Json.obj [("x", Json.num 5)]), none⟩
    (Json.obj [("x", Json.num 5)]) rfl rfl

/-- C10: the `keys` transformation is total — for every upstream response
it returns a string, either the re-serialization of the parsed body or the
raw body text, and never an error of any kind. -/
theorem keys_total (r : UpstreamResponse) :
    ∃ s, keys r = Except.ok s ∧
      ((∃ j, resp_json r = Except.ok j ∧ s = serializeJson j) ∨ s = r.text) := by
  cases hj : resp_json r with
  | ok j =>
    refine ⟨serializeJson j, ?_, Or.inl ⟨j, rfl, rfl⟩⟩
    simp [keys, hj, json_dumps]
  | error e =>
    refine ⟨r.text, ?_, Or.inr rfl⟩
    simp [keys, hj]

end TalerMitm
